import Mathlib

/-!
Shallow embedding of the schema / validation layer of the HomeFinder
repository (file `shared/schema.ts`).

The source defines four drizzle-orm tables (`users`, `properties`,
`appointments`, `agents`), zod insert schemas derived from them with
`createInsertSchema` (drizzle-zod) plus per-field refinements, and a
`propertyFilterSchema` built directly with `z.object`.

The embedding models:
  - JavaScript runtime values as the inductive `JSValue` (numbers are
    modelled as exact decimals plus the special values NaN and the two
    infinities; this idealises IEEE doubles, whose rounding and exponent
    styling play no role in the validation logic being verified);
  - the JavaScript builtins used by the schema transforms: `Number(string)`
    (`jsNumber`), `String(number)` (`jsNumToString`) and
    `new Date(string)` (`jsNewDate`, covering the ES ISO date-time string
    format; a runtime whose local zone is UTC is assumed for date-time
    strings that carry no zone designator);
  - the zod combinators the source uses (`z.string`, `z.number`,
    `z.boolean`, `z.date`, `z.array(z.number())`, `.optional`, `.nullable`,
    `.transform`, `z.union`, and object parsing with its default policy of
    stripping unknown keys), each mirroring the behaviour of zod v3;
  - drizzle-zod `createInsertSchema` driven by the declared columns.
-/

/-- Exact decimal number: the value `mant * 10 ^ exp`. All producers in
this development emit the normalised form (mantissa not divisible by ten,
and zero represented as `⟨0, 0⟩`), so one value has one representation. -/
structure Dec where
  mant : ℤ
  exp : ℤ
  deriving DecidableEq, Repr

/-- Remove factors of ten from the mantissa, moving them into the
exponent; fuel-driven so the kernel can evaluate it. -/
def stripTens : ℕ → ℤ → ℤ → ℤ × ℤ
  | 0, m, e => (m, e)
  | fuel + 1, m, e => if m % 10 = 0 ∧ m ≠ 0 then stripTens fuel (m / 10) (e + 1) else (m, e)

/-- Normalising constructor for `Dec`. -/
def decNorm (m e : ℤ) : Dec :=
  if m = 0 then ⟨0, 0⟩
  else
    let r := stripTens m.natAbs m e
    ⟨r.1, r.2⟩

/-- Numbers of the JavaScript runtime, idealised: NaN, the infinities, and
finite values as exact decimals. -/
inductive JSNum where
  | nan
  | posInf
  | negInf
  | finite (d : Dec)
  deriving DecidableEq, Repr

/-- Date values of the JavaScript runtime: either an Invalid Date or a
valid instant given by its offset in milliseconds from the Unix epoch. -/
inductive JSDate where
  | invalid
  | valid (ms : ℤ)
  deriving DecidableEq, Repr

/-- JavaScript runtime values relevant to the schemas of the repository.
Arrays appear only as arrays of numbers (the `savedProperties` column), so
they are modelled non-recursively. -/
inductive JSValue where
  | undef
  | nullv
  | bool (b : Bool)
  | num (n : JSNum)
  | str (s : String)
  | date (d : JSDate)
  | numArr (xs : List JSNum)
  deriving DecidableEq, Repr

/-- A JavaScript object, as the association list of its own enumerable
properties in insertion order. -/
abbrev JSObject := List (String × JSValue)

/-- Property lookup on a JavaScript object: `none` models an absent key. -/
def jget (o : JSObject) (k : String) : Option JSValue :=
  (o.find? (fun p => p.1 == k)).map (fun p => p.2)

/-! ## The JavaScript builtin `Number(string)` -/

/-- Whitespace characters trimmed by JavaScript string-to-number
conversion (the common WhiteSpace and LineTerminator code points). -/
def isJSSpace (c : Char) : Bool :=
  c = ' ' || c = '\t' || c = '\n' || c = '\r' || c = '\x0b' || c = '\x0c' || c = '\xa0'

/-- Numeric value of a decimal digit character. -/
def digitVal (c : Char) : ℕ := c.toNat - '0'.toNat

/-- Value of an all-digit character list in the given base, digit values
supplied by `val`. -/
def radixFold (base : ℕ) (val : Char → ℕ) (ds : List Char) : ℕ :=
  ds.foldl (fun a c => a * base + val c) 0

/-- Parse the digit part of a radix-prefixed numeric string (after `0x`,
`0o` or `0b`): all characters must be digits of the base, and at least one
must be present, otherwise the result is NaN. -/
def parseRadix (base : ℕ) (isDig : Char → Bool) (val : Char → ℕ) (ds : List Char) : JSNum :=
  if ds ≠ [] ∧ ds.all isDig then .finite (decNorm (radixFold base val ds) 0) else .nan

/-- Hexadecimal digit test. -/
def isHexDig (c : Char) : Bool :=
  c.isDigit || ('a' ≤ c && c ≤ 'f') || ('A' ≤ c && c ≤ 'F')

/-- Hexadecimal digit value. -/
def hexVal (c : Char) : ℕ :=
  if c.isDigit then digitVal c
  else if 'a' ≤ c && c ≤ 'f' then c.toNat - 'a'.toNat + 10
  else c.toNat - 'A'.toNat + 10

/-- Parse the body of an unsigned decimal numeric literal (digits, an
optional fraction, an optional decimal exponent), as the JavaScript
StrUnsignedDecimalLiteral grammar does; anything malformed yields NaN. -/
def parseDecBody (body : List Char) : JSNum :=
  let mant := body.takeWhile (fun c => !(c = 'e' || c = 'E'))
  let expPart := body.dropWhile (fun c => !(c = 'e' || c = 'E'))
  let expVal : Option ℤ :=
    match expPart with
    | [] => some 0
    | _ :: rest =>
      let esign : ℤ := match rest with | '-' :: _ => -1 | _ => 1
      let edigs := match rest with | '+' :: r => r | '-' :: r => r | r => r
      if edigs ≠ [] ∧ edigs.all (fun c => c.isDigit) then
        some (esign * (radixFold 10 digitVal edigs : ℕ))
      else none
  let ip := mant.takeWhile (fun c => c ≠ '.')
  let fpRaw := mant.dropWhile (fun c => c ≠ '.')
  let frac : Option (List Char) :=
    match fpRaw with
    | [] => some []
    | '.' :: r => if r.all (fun c => c.isDigit) then some r else none
    | _ => none
  match frac, expVal with
  | some fr, some e =>
    if ip.all (fun c => c.isDigit) ∧ (ip ≠ [] ∨ fr ≠ []) then
      .finite (decNorm (radixFold 10 digitVal (ip ++ fr)) (e - fr.length))
    else .nan
  | _, _ => .nan

/-- Parse a trimmed nonempty numeric string with an optional sign:
either the literal Infinity or a decimal literal body. -/
def parseSignedDec (cs : List Char) : JSNum :=
  let neg : Bool := match cs with | '-' :: _ => true | _ => false
  let body := match cs with | '+' :: r => r | '-' :: r => r | r => r
  if body = "Infinity".data then (if neg then .negInf else .posInf)
  else
    match parseDecBody body with
    | .finite d => .finite (if neg then ⟨-d.mant, d.exp⟩ else d)
    | r => r

/-- The JavaScript builtin conversion `Number(string)` (the abstract
operation StringToNumber): surrounding whitespace is trimmed, the empty
string converts to 0, radix-prefixed and signed decimal literals are
recognised, and everything else converts to NaN. -/
def jsNumber (s : String) : JSNum :=
  let cs := ((s.data.dropWhile isJSSpace).reverse.dropWhile isJSSpace).reverse
  match cs with
  | [] => .finite (decNorm 0 0)
  | '0' :: c :: rest =>
    if c = 'x' || c = 'X' then parseRadix 16 isHexDig hexVal rest
    else if c = 'o' || c = 'O' then parseRadix 8 (fun d => '0' ≤ d && d ≤ '7') digitVal rest
    else if c = 'b' || c = 'B' then parseRadix 2 (fun d => d = '0' || d = '1') digitVal rest
    else parseSignedDec cs
  | _ => parseSignedDec cs

/-! ## The JavaScript builtin `String(number)` -/

/-- The JavaScript builtin conversion `String(number)` on the values the
schema transforms can produce. Finite values print as their exact decimal
numeral, the unique shortest decimal of the value (the exponent styling
JavaScript applies to extreme magnitudes is outside the model). -/
def jsNumToString : JSNum → String
  | .nan => "NaN"
  | .posInf => "Infinity"
  | .negInf => "-Infinity"
  | .finite d0 =>
    let d := decNorm d0.mant d0.exp
    if d.mant = 0 then "0"
    else
      let sign := if d.mant < 0 then "-" else ""
      let ds := (toString d.mant.natAbs).data
      if 0 ≤ d.exp then
        sign ++ String.mk ds ++ String.mk (List.replicate d.exp.toNat '0')
      else
        let k := (-d.exp).toNat
        if ds.length ≤ k then
          sign ++ "0." ++ String.mk (List.replicate (k - ds.length) '0') ++ String.mk ds
        else
          sign ++ String.mk (ds.take (ds.length - k)) ++ "." ++ String.mk (ds.drop (ds.length - k))

/-! ## The JavaScript builtin `new Date(string)` -/

/-- Read exactly `n` decimal digit characters, returning their value and
the remaining characters. -/
def getDigits (n : ℕ) (cs : List Char) : Option (ℕ × List Char) :=
  let ds := cs.take n
  if ds.length = n ∧ ds.all (fun c => c.isDigit) then
    some (radixFold 10 digitVal ds, cs.drop n)
  else none

/-- Days from the Unix epoch to the given civil date (proleptic Gregorian
calendar); the standard days-from-civil computation with truncating
integer division. -/
def daysFromCivil (y : ℤ) (m d : ℤ) : ℤ :=
  let y := if m ≤ 2 then y - 1 else y
  let era := (if 0 ≤ y then y else y - 399) / 400
  let yoe := y - era * 400
  let mp := (m + 9) % 12
  let doy := (153 * mp + 2) / 5 + d - 1
  let doe := yoe * 365 + yoe / 4 - yoe / 100 + doy
  era * 146097 + doe - 719468

/-- Parse a zone offset body `HH:mm` (after the sign), in minutes. -/
def parseOffsetBody (cs : List Char) : Option ℤ := do
  let (h, r) ← getDigits 2 cs
  match r with
  | ':' :: rr => do
    let (m, r2) ← getDigits 2 rr
    if r2 = [] ∧ h ≤ 23 ∧ m ≤ 59 then pure ((h : ℤ) * 60 + m) else none
  | _ => none

/-- Parse the time-of-day part after the date designator T: hours and
minutes, optional seconds, optional milliseconds, then the remaining
characters (the zone designator, if any). -/
def parseTimePart (cs : List Char) : Option (ℕ × ℕ × ℕ × ℕ × List Char) := do
  let (h, r1) ← getDigits 2 cs
  match r1 with
  | ':' :: r2 => do
    let (mi, r3) ← getDigits 2 r2
    match r3 with
    | ':' :: r4 => do
      let (sec, r5) ← getDigits 2 r4
      match r5 with
      | '.' :: r6 => do
        let (ms, r7) ← getDigits 3 r6
        pure (h, mi, sec, ms, r7)
      | _ => pure (h, mi, sec, 0, r5)
    | _ => pure (h, mi, 0, 0, r3)
  | _ => none

/-- Parse an ES Date Time String Format string into milliseconds from the
epoch: `YYYY[-MM[-DD]]` optionally followed by `THH:mm[:ss[.sss]]` and a
zone designator Z or a signed `HH:mm` offset. A date-only form denotes
UTC midnight; a date-time form without a zone designator denotes local
time, modelled as UTC. -/
def parseDateString (cs : List Char) : Option ℤ := do
  let (y, r1) ← getDigits 4 cs
  let (mo, r2) ← match r1 with
    | '-' :: rest => getDigits 2 rest
    | _ => pure (1, r1)
  let (d, r3) ← match r2 with
    | '-' :: rest => getDigits 2 rest
    | _ => pure (1, r2)
  if ¬ (1 ≤ mo ∧ mo ≤ 12 ∧ 1 ≤ d ∧ d ≤ 31) then none
  else
    let dayMs : ℤ := daysFromCivil y mo d * 86400000
    match r3 with
    | [] => pure dayMs
    | 'T' :: rest => do
      let (h, mi, sec, ms, r4) ← parseTimePart rest
      if ¬ (h ≤ 23 ∧ mi ≤ 59 ∧ sec ≤ 59) then none
      else do
        let offMin : ℤ ← match r4 with
          | [] => pure 0
          | ['Z'] => pure 0
          | '+' :: rr => parseOffsetBody rr
          | '-' :: rr => (parseOffsetBody rr).map (fun o => -o)
          | _ => none
        pure (dayMs + (h : ℤ) * 3600000 + (mi : ℤ) * 60000 + (sec : ℤ) * 1000 + (ms : ℤ)
          - offMin * 60000)
    | _ => none

/-- The JavaScript date construction `new Date(string)`: strings in the ES
ISO format yield the corresponding instant (when inside the representable
range of 8.64e15 milliseconds either side of the epoch), every other
string yields an Invalid Date. -/
def jsNewDate (s : String) : JSDate :=
  match parseDateString s.data with
  | some ms => if ms ≤ 8640000000000000 ∧ -8640000000000000 ≤ ms then .valid ms else .invalid
  | none => .invalid

example : jsNumber "3" = .finite (decNorm 3 0) := by decide
example : jsNumber "three" = .nan := by decide
example : jsNumber "" = .finite ⟨0, 0⟩ := by decide
example : jsNumber "1998" = .finite ⟨1998, 0⟩ := by decide
example : jsNumber "250000.50" = .finite ⟨2500005, -1⟩ := by decide
example : jsNumToString (.finite ⟨250000, 0⟩) = "250000" := by decide
example : jsNumToString (.finite ⟨2500005, -1⟩) = "250000.5" := by decide
example : jsNumToString (.finite ⟨-78, -2⟩) = "-0.78" := by decide
example : jsNewDate "not-a-date" = .invalid := by decide
example : jsNewDate "2024-05-01T10:00:00Z" = .valid 1714557600000 := by decide
example : jsNewDate "2024-05-01" = .valid 1714521600000 := by decide

/-! ## Zod combinators

Each combinator mirrors zod v3 behaviour. A field validator receives the
value found at the key, with `JSValue.undef` standing for an absent key,
and either succeeds with the (possibly transformed) value or fails with an
error kind. Zod reports a failure on an absent value as the Required
error (invalid type, received undefined), modelled as `ErrKind.missing`;
every other failure is a wrong-shape report, modelled as
`ErrKind.shape`. -/

/-- Kind of a field-level validation failure: a required field that was
absent, or a present field of the wrong shape. -/
inductive ErrKind where
  | missing
  | shape
  deriving DecidableEq, Repr

deriving instance DecidableEq for Except

/-- A field validator. -/
abbrev Schema := JSValue → Except ErrKind JSValue

/-- The shape of a zod object schema: fields in declaration order. -/
abbrev ZodObjectSchema := List (String × Schema)

/-- The combinator z.string: accepts exactly string values. -/
def zodString : Schema := fun v =>
  match v with
  | .str _ => .ok v
  | .undef => .error .missing
  | _ => .error .shape

/-- The combinator z.number: accepts number values other than NaN (zod
classifies a NaN input as its own parsed type and rejects it). -/
def zodNumber : Schema := fun v =>
  match v with
  | .num .nan => .error .shape
  | .num _ => .ok v
  | .undef => .error .missing
  | _ => .error .shape

/-- The combinator z.boolean. -/
def zodBoolean : Schema := fun v =>
  match v with
  | .bool _ => .ok v
  | .undef => .error .missing
  | _ => .error .shape

/-- The combinator z.date: accepts date values, rejecting an Invalid Date
with the invalid_date issue. -/
def zodDate : Schema := fun v =>
  match v with
  | .date (.valid _) => .ok v
  | .date .invalid => .error .shape
  | .undef => .error .missing
  | _ => .error .shape

/-- The combinator z.array(z.number()): accepts arrays of numbers whose
elements all pass z.number. -/
def zodNumArray : Schema := fun v =>
  match v with
  | .numArr xs => if xs.all (fun n => !(n == .nan)) then .ok v else .error .shape
  | .undef => .error .missing
  | _ => .error .shape

/-- The modifier .optional(): an absent (undefined) value succeeds as
undefined, anything else goes to the inner validator. -/
def zodOptional (s : Schema) : Schema := fun v =>
  match v with
  | .undef => .ok .undef
  | _ => s v

/-- The modifier .nullable(): null succeeds as null, anything else goes to
the inner validator. -/
def zodNullable (s : Schema) : Schema := fun v =>
  match v with
  | .nullv => .ok .nullv
  | _ => s v

/-- The modifier .transform(f): parse with the inner validator, then apply
the function to the parsed value; the function result is not validated
again (this is exactly why a transform returning NaN or an Invalid Date
still succeeds). -/
def zodTransform (s : Schema) (f : JSValue → JSValue) : Schema := fun v =>
  (s v).map f

/-- The combinator z.union of two members: the members are tried in
order and the first success wins; when both fail the union reports one
aggregate issue (Required when the input was absent, a shape mismatch
otherwise). -/
def zodUnion2 (a b : Schema) : Schema := fun v =>
  match a v with
  | .ok r => .ok r
  | .error _ =>
    match b v with
    | .ok r => .ok r
    | .error _ =>
      match v with
      | .undef => .error .missing
      | _ => .error .shape

/-- Evaluation of one field of an object schema: the value at the key
(undefined when absent) is run through the field validator; whether the
key was literally present is recorded, because zod keeps a key whose
parsed value is undefined only when the input had the key. -/
def fieldResult (input : JSObject) (p : String × Schema) :
    String × Except ErrKind JSValue × Bool :=
  (p.1, p.2 ((jget input p.1).getD .undef), (jget input p.1).isSome)

/-- The per-field results of running an object schema over an input. -/
def parseResults (shape : ZodObjectSchema) (input : JSObject) :
    List (String × Except ErrKind JSValue × Bool) :=
  shape.map (fieldResult input)

/-- The aggregated issues of all failing fields, in shape order. -/
def parseErrs (shape : ZodObjectSchema) (input : JSObject) : List (String × ErrKind) :=
  (parseResults shape input).filterMap (fun r =>
    match r.2.1 with
    | .error e => some (r.1, e)
    | .ok _ => none)

/-- The output object on success: parsed fields in shape order — unknown
input keys are stripped, and a field whose parsed value is undefined is
kept only when the key was literally present in the input. -/
def parseOut (shape : ZodObjectSchema) (input : JSObject) : JSObject :=
  (parseResults shape input).filterMap (fun r =>
    match r.2.1 with
    | .ok v => if v = .undef ∧ r.2.2 = false then none else some (r.1, v)
    | .error _ => none)

/-- Parsing with a zod object schema in its default (strip) mode: every
field of the shape is validated, the issues of all failing fields are
aggregated, and on success the stripped output object is returned. -/
def zodParse (shape : ZodObjectSchema) (input : JSObject) :
    Except (List (String × ErrKind)) JSObject :=
  if (parseErrs shape input).isEmpty then .ok (parseOut shape input)
  else .error (parseErrs shape input)

/-- The validator attached to a field of an object schema. -/
def fieldSchema (shape : ZodObjectSchema) (name : String) : Option Schema :=
  (shape.find? (fun p => p.1 == name)).map (fun p => p.2)

/-! ## The drizzle tables of shared/schema.ts -/

/-- Column type of the drizzle columns used by the source tables. -/
inductive ColType where
  | text
  | serial
  | integer
  | numeric
  | boolean
  | timestamp
  | intArray
  deriving DecidableEq, Repr

/-- A declared drizzle column: name, type, whether it is notNull, whether
it carries a default, and the declared default value when it is a literal
(serial assignment and defaultNow are server-assigned and carry none). -/
structure Column where
  name : String
  ty : ColType
  notNull : Bool
  hasDefault : Bool
  defaultVal : Option JSValue
  deriving Repr

/-- The users table of shared/schema.ts (uniqueness of username and email
is enforced by the database, outside this layer). -/
def users : List Column := [
  ⟨"id", .serial, true, true, none⟩,
  ⟨"username", .text, true, false, none⟩,
  ⟨"password", .text, true, false, none⟩,
  ⟨"email", .text, true, false, none⟩,
  ⟨"fullName", .text, true, false, none⟩,
  ⟨"savedProperties", .intArray, true, true, some (.numArr [])⟩,
  ⟨"createdAt", .timestamp, false, true, none⟩]

/-- The properties table of shared/schema.ts. -/
def properties : List Column := [
  ⟨"id", .serial, true, true, none⟩,
  ⟨"title", .text, true, false, none⟩,
  ⟨"description", .text, true, false, none⟩,
  ⟨"price", .numeric, true, false, none⟩,
  ⟨"address", .text, true, false, none⟩,
  ⟨"city", .text, true, false, none⟩,
  ⟨"state", .text, true, false, none⟩,
  ⟨"zipCode", .text, true, false, none⟩,
  ⟨"lat", .numeric, true, false, none⟩,
  ⟨"lng", .numeric, true, false, none⟩,
  ⟨"bedrooms", .integer, true, false, none⟩,
  ⟨"bathrooms", .integer, true, false, none⟩,
  ⟨"squareFeet", .integer, true, false, none⟩,
  ⟨"yearBuilt", .integer, false, false, none⟩,
  ⟨"propertyType", .text, true, false, none⟩,
  ⟨"listingType", .text, true, false, none⟩,
  ⟨"imageUrl", .text, true, false, none⟩,
  ⟨"userId", .integer, true, false, none⟩,
  ⟨"featured", .boolean, false, true, some (.bool false)⟩,
  ⟨"status", .text, false, true, some (.str "available")⟩,
  ⟨"avgRating", .numeric, false, true, some (.str "0")⟩,
  ⟨"ratingCount", .integer, false, true, some (.num (.finite ⟨0, 0⟩))⟩,
  ⟨"createdAt", .timestamp, false, true, none⟩]

/-- The appointments table of shared/schema.ts. -/
def appointments : List Column := [
  ⟨"id", .serial, true, true, none⟩,
  ⟨"propertyId", .integer, true, false, none⟩,
  ⟨"userId", .integer, true, false, none⟩,
  ⟨"date", .timestamp, true, false, none⟩,
  ⟨"message", .text, false, false, none⟩,
  ⟨"status", .text, false, true, some (.str "pending")⟩,
  ⟨"createdAt", .timestamp, false, true, none⟩]

/-- The agents table of shared/schema.ts. -/
def agents : List Column := [
  ⟨"id", .serial, true, true, none⟩,
  ⟨"name", .text, true, false, none⟩,
  ⟨"specialization", .text, true, false, none⟩,
  ⟨"rating", .numeric, true, false, none⟩,
  ⟨"propertiesSold", .integer, true, false, none⟩,
  ⟨"imageUrl", .text, true, false, none⟩]

/-! ## drizzle-zod createInsertSchema -/

/-- Base zod validator drizzle-zod derives for a column type: text and
numeric columns are strings on the wire, serial and integer columns are
numbers, boolean and timestamp columns are booleans and dates, and the
integer array column is an array of numbers. -/
def baseColumnSchema : ColType → Schema
  | .text => zodString
  | .serial => zodNumber
  | .integer => zodNumber
  | .numeric => zodString
  | .boolean => zodBoolean
  | .timestamp => zodDate
  | .intArray => zodNumArray

/-- Field validator drizzle-zod derives for a column in the insert schema:
a nullable column becomes nullable and optional, a notNull column with a
default becomes optional, and a plain notNull column is required. -/
def columnSchema (c : Column) : Schema :=
  if c.notNull then
    (if c.hasDefault then zodOptional (baseColumnSchema c.ty) else baseColumnSchema c.ty)
  else zodOptional (zodNullable (baseColumnSchema c.ty))

/-- drizzle-zod createInsertSchema: one field per column, the derived
validator replaced by the given refinement where one is supplied. -/
def createInsertSchema (cols : List Column) (refine : String → Option Schema) :
    ZodObjectSchema :=
  cols.map (fun c => (c.name, (refine c.name).getD (columnSchema c)))

/-- The .omit modifier on a zod object schema: drop the named keys. -/
def omitKeys (shape : ZodObjectSchema) (keys : List String) : ZodObjectSchema :=
  shape.filter (fun p => !(keys.contains p.1))

/-! ## The insert schemas and their refinements -/

/-- The arrow function val => String(val) used by the price, lat and lng
refinements (it only ever receives the output of z.number). -/
def stringTransform : JSValue → JSValue
  | .num n => .str (jsNumToString n)
  | v => v

/-- The arrow function val => Number(val) used by the bedrooms, bathrooms
and squareFeet refinements (it only ever receives the output of
z.string). -/
def numberTransform : JSValue → JSValue
  | .str s => .num (jsNumber s)
  | v => v

/-- The arrow function val => val ? Number(val) : undefined used by the
yearBuilt refinement: the empty string is the one falsy string, so it
maps to undefined. -/
def yearBuiltTransform : JSValue → JSValue
  | .str s => if s = "" then .undef else .num (jsNumber s)
  | v => v

/-- The arrow function val => new Date(val) used by the appointment date
refinement. -/
def dateTransform : JSValue → JSValue
  | .str s => .date (jsNewDate s)
  | v => v

/-- The refinement z.union([z.string(), z.number().transform(String)])
given to price, lat and lng. -/
def numericOrNumberToString : Schema :=
  zodUnion2 zodString (zodTransform zodNumber stringTransform)

/-- The refinement z.union([z.number(), z.string().transform(Number)])
given to bedrooms, bathrooms and squareFeet. -/
def numberOrStringToNumber : Schema :=
  zodUnion2 zodNumber (zodTransform zodString numberTransform)

/-- The yearBuilt refinement: a union of an optional number and an
optional string transformed by val => val ? Number(val) : undefined. -/
def yearBuiltSchema : Schema :=
  zodUnion2 (zodOptional zodNumber) (zodOptional (zodTransform zodString yearBuiltTransform))

/-- The appointment date refinement
z.union([z.date(), z.string().transform(val => new Date(val))]). -/
def appointmentDateSchema : Schema :=
  zodUnion2 zodDate (zodTransform zodString dateTransform)

/-- The refinement record passed to createInsertSchema for the properties
table. -/
def propertyRefine : String → Option Schema := fun name =>
  if name = "price" ∨ name = "lat" ∨ name = "lng" then some numericOrNumberToString
  else if name = "bedrooms" ∨ name = "bathrooms" ∨ name = "squareFeet" then
    some numberOrStringToNumber
  else if name = "yearBuilt" then some yearBuiltSchema
  else none

/-- The refinement record passed to createInsertSchema for the
appointments table. -/
def appointmentRefine : String → Option Schema := fun name =>
  if name = "date" then some appointmentDateSchema else none

/-- insertUserSchema of shared/schema.ts: createInsertSchema over the
users table. The refinements written in the source return each field
schema unchanged, and no keys are omitted. -/
def insertUserSchema : ZodObjectSchema :=
  createInsertSchema users (fun _ => none)

/-- insertPropertySchema of shared/schema.ts: createInsertSchema over the
properties table with the numeric refinements, then omit id and
createdAt. -/
def insertPropertySchema : ZodObjectSchema :=
  omitKeys (createInsertSchema properties propertyRefine) ["id", "createdAt"]

/-- insertAppointmentSchema of shared/schema.ts: createInsertSchema over
the appointments table with the date refinement, then omit id and
createdAt. -/
def insertAppointmentSchema : ZodObjectSchema :=
  omitKeys (createInsertSchema appointments appointmentRefine) ["id", "createdAt"]

/-- insertAgentSchema of shared/schema.ts: createInsertSchema over the
agents table, then omit id. -/
def insertAgentSchema : ZodObjectSchema :=
  omitKeys (createInsertSchema agents (fun _ => none)) ["id"]

/-- propertyFilterSchema of shared/schema.ts: a z.object of eleven
optional string fields. -/
def propertyFilterSchema : ZodObjectSchema := [
  ("city", zodOptional zodString),
  ("minPrice", zodOptional zodString),
  ("maxPrice", zodOptional zodString),
  ("minBeds", zodOptional zodString),
  ("minBaths", zodOptional zodString),
  ("propertyType", zodOptional zodString),
  ("listingType", zodOptional zodString),
  ("minSqft", zodOptional zodString),
  ("maxSqft", zodOptional zodString),
  ("minYear", zodOptional zodString),
  ("maxYear", zodOptional zodString)]

/-! ## Row construction at the persistence layer

`insertRow` models what the database does with a validated insert object:
every declared column receives either the supplied value, or — when the
field is absent — the declared default (the serial id and the defaultNow
timestamp are server-assigned, supplied here as parameters). -/

/-- Build the stored row for a validated insert object, applying declared
column defaults to absent fields. -/
def insertRow (cols : List Column) (newId : ℤ) (now : ℤ) (validated : JSObject) : JSObject :=
  cols.map (fun c => (c.name,
    match jget validated c.name with
    | some v => v
    | none =>
      match c.ty, c.defaultVal with
      | .serial, _ => .num (.finite (decNorm newId 0))
      | _, some d => d
      | .timestamp, none => if c.hasDefault then .date (.valid now) else .nullv
      | _, none => .nullv))

/-! ## General lemmas about zod object parsing -/

/-- An entry of a parse output comes from a shape field with the same key
whose validator succeeded with that value, the value being kept by the
strip rule. -/
theorem parseOut_entry {shape : ZodObjectSchema} {input : JSObject}
    {k : String} {v : JSValue} (hm : (k, v) ∈ parseOut shape input) :
    ∃ p ∈ shape, p.1 = k ∧ p.2 ((jget input p.1).getD .undef) = .ok v ∧
      ¬ (v = .undef ∧ (jget input p.1).isSome = false) := by
  rcases List.mem_filterMap.mp hm with ⟨a, ha, hfa⟩
  rcases List.mem_map.mp ha with ⟨p, hp, hpa⟩
  subst hpa
  rcases p with ⟨k0, sch⟩
  simp only [fieldResult] at hfa
  cases hres : sch ((jget input k0).getD .undef) with
  | error e => rw [hres] at hfa; simp at hfa
  | ok v0 =>
    rw [hres] at hfa
    simp only at hfa
    split at hfa
    · exact absurd hfa (by simp)
    · rename_i hcond
      simp only [Option.some.injEq, Prod.mk.injEq] at hfa
      refine ⟨(k0, sch), hp, hfa.1, ?_, ?_⟩
      · dsimp only; rw [hres, hfa.2]
      · dsimp only; rw [← hfa.2]; exact hcond

/-- Every key of a parse output comes from the shape. -/
theorem mem_shape_keys_of_mem_parseOut {shape : ZodObjectSchema} {input : JSObject}
    {k : String} {v : JSValue} (hm : (k, v) ∈ parseOut shape input) :
    k ∈ shape.map Prod.fst := by
  rcases parseOut_entry hm with ⟨p, hp, hpk, -, -⟩
  exact List.mem_map.mpr ⟨p, hp, hpk⟩

/-- A key outside the key list of an object is absent from it. -/
theorem jget_eq_none_of_not_mem_keys {o : JSObject} {k : String}
    (h : k ∉ o.map Prod.fst) : jget o k = none := by
  unfold jget
  have hnone : o.find? (fun p => p.1 == k) = none := by
    apply List.find?_eq_none.mpr
    intro x hx
    simp only [beq_iff_eq]
    intro hk
    exact h (List.mem_map.mpr ⟨x, hx, hk⟩)
  rw [hnone]
  rfl

/-- When every field validator succeeds on its looked-up value, object
parsing succeeds with the stripped output. -/
theorem zodParse_ok_of_fields {shape : ZodObjectSchema} {input : JSObject}
    (h : ∀ p ∈ shape, ∃ r, p.2 ((jget input p.1).getD .undef) = .ok r) :
    zodParse shape input = .ok (parseOut shape input) := by
  unfold zodParse
  rw [if_pos]
  rw [List.isEmpty_iff]
  apply List.filterMap_eq_nil_iff.mpr
  intro a ha
  rcases List.mem_map.mp ha with ⟨p, hp, hpa⟩
  rcases h p hp with ⟨r, hr⟩
  subst hpa
  simp only [fieldResult, hr]

/-- When some field validator fails on its looked-up value, object parsing
fails, and the aggregated issues name that field with its error kind. -/
theorem zodParse_error_of_field {shape : ZodObjectSchema} {input : JSObject}
    {k : String} {sch : Schema} {e : ErrKind}
    (hmem : (k, sch) ∈ shape)
    (he : sch ((jget input k).getD .undef) = .error e) :
    zodParse shape input = .error (parseErrs shape input) ∧
      (k, e) ∈ parseErrs shape input := by
  have hin : (k, e) ∈ parseErrs shape input := by
    apply List.mem_filterMap.mpr
    refine ⟨fieldResult input (k, sch), List.mem_map_of_mem _ hmem, ?_⟩
    simp only [fieldResult, he]
  refine ⟨?_, hin⟩
  unfold zodParse
  rw [if_neg]
  intro hemp
  rw [List.isEmpty_iff] at hemp
  rw [hemp] at hin
  exact List.not_mem_nil _ hin

/-- A key absent from the input, whose field validator maps undefined to
undefined, is absent from the parse output. -/
theorem parseOut_absent_key {shape : ZodObjectSchema} {input : JSObject} {k : String}
    (hin : jget input k = none)
    (hschema : ∀ sch, (k, sch) ∈ shape → sch .undef = .ok .undef) :
    jget (parseOut shape input) k = none := by
  apply jget_eq_none_of_not_mem_keys
  intro hk
  rcases List.mem_map.mp hk with ⟨⟨k0, v⟩, hm, hk0⟩
  simp only at hk0
  subst hk0
  rcases parseOut_entry hm with ⟨⟨k1, sch⟩, hp, hpk, hres, hkeep⟩
  simp only at hpk
  subst hpk
  rw [hin] at hres hkeep
  simp only [Option.getD_none, Option.isSome_none] at hres hkeep
  have hundef : v = JSValue.undef := by
    have hs := hschema sch hp
    rw [hs] at hres
    exact (Except.ok.inj hres).symm
  have hkeep2 : v ≠ JSValue.undef := by simpa using hkeep
  exact hkeep2 hundef

/-- On a successful parse the output is exactly the stripped output. -/
theorem zodParse_ok_out {shape : ZodObjectSchema} {input out : JSObject}
    (h : zodParse shape input = .ok out) : out = parseOut shape input := by
  unfold zodParse at h
  split at h
  · exact (Except.ok.inj h).symm
  · cases h

/-- A key outside the shape keys is absent from every parse output. -/
theorem parseOut_key_not_in_shape {shape : ZodObjectSchema} {input : JSObject} {k : String}
    (h : k ∉ shape.map Prod.fst) : jget (parseOut shape input) k = none := by
  apply jget_eq_none_of_not_mem_keys
  intro hk
  rcases List.mem_map.mp hk with ⟨⟨k0, v⟩, hm, hk0⟩
  simp only at hk0
  subst hk0
  exact h (mem_shape_keys_of_mem_parseOut hm)

/-- The property insert schema, written out field by field: the refined
validators on the numeric fields, the derived validators elsewhere, id and
createdAt omitted. -/
theorem insertPropertySchema_eq :
    insertPropertySchema = [
      ("title", zodString),
      ("description", zodString),
      ("price", numericOrNumberToString),
      ("address", zodString),
      ("city", zodString),
      ("state", zodString),
      ("zipCode", zodString),
      ("lat", numericOrNumberToString),
      ("lng", numericOrNumberToString),
      ("bedrooms", numberOrStringToNumber),
      ("bathrooms", numberOrStringToNumber),
      ("squareFeet", numberOrStringToNumber),
      ("yearBuilt", yearBuiltSchema),
      ("propertyType", zodString),
      ("listingType", zodString),
      ("imageUrl", zodString),
      ("userId", zodNumber),
      ("featured", zodOptional (zodNullable zodBoolean)),
      ("status", zodOptional (zodNullable zodString)),
      ("avgRating", zodOptional (zodNullable zodString)),
      ("ratingCount", zodOptional (zodNullable zodNumber))] := rfl

/-! ## Concrete payloads used by the claim checks -/

/-- A property insert payload already in canonical shape (every field the
kind its column stores), with the optional and defaulted fields absent. -/
def validPropertyPayload : JSObject := [
  ("title", .str "Cozy Cottage"),
  ("description", .str "A nice home"),
  ("price", .str "250000"),
  ("address", .str "1 Main St"),
  ("city", .str "Springfield"),
  ("state", .str "IL"),
  ("zipCode", .str "62704"),
  ("lat", .str "39.78"),
  ("lng", .str "-89.65"),
  ("bedrooms", .num (.finite ⟨3, 0⟩)),
  ("bathrooms", .num (.finite ⟨2, 0⟩)),
  ("squareFeet", .num (.finite ⟨15, 2⟩)),
  ("propertyType", .str "house"),
  ("listingType", .str "buy"),
  ("imageUrl", .str "img.jpg"),
  ("userId", .num (.finite ⟨1, 0⟩))]

/-- The same payload with the non-numeric string three in bedrooms. -/
def bedroomsThreePayload : JSObject := [
  ("title", .str "Cozy Cottage"),
  ("description", .str "A nice home"),
  ("price", .str "250000"),
  ("address", .str "1 Main St"),
  ("city", .str "Springfield"),
  ("state", .str "IL"),
  ("zipCode", .str "62704"),
  ("lat", .str "39.78"),
  ("lng", .str "-89.65"),
  ("bedrooms", .str "three"),
  ("bathrooms", .num (.finite ⟨2, 0⟩)),
  ("squareFeet", .num (.finite ⟨15, 2⟩)),
  ("propertyType", .str "house"),
  ("listingType", .str "buy"),
  ("imageUrl", .str "img.jpg"),
  ("userId", .num (.finite ⟨1, 0⟩))]

/-- What the property insert validator returns on the bedrooms = three
payload: success, with bedrooms holding NaN. -/
def bedroomsThreeParsed : JSObject := [
  ("title", .str "Cozy Cottage"),
  ("description", .str "A nice home"),
  ("price", .str "250000"),
  ("address", .str "1 Main St"),
  ("city", .str "Springfield"),
  ("state", .str "IL"),
  ("zipCode", .str "62704"),
  ("lat", .str "39.78"),
  ("lng", .str "-89.65"),
  ("bedrooms", .num .nan),
  ("bathrooms", .num (.finite ⟨2, 0⟩)),
  ("squareFeet", .num (.finite ⟨15, 2⟩)),
  ("propertyType", .str "house"),
  ("listingType", .str "buy"),
  ("imageUrl", .str "img.jpg"),
  ("userId", .num (.finite ⟨1, 0⟩))]

/-- An appointment insert payload whose date is the unparseable string
not-a-date. -/
def badDateAppointmentPayload : JSObject := [
  ("propertyId", .num (.finite ⟨1, 0⟩)),
  ("userId", .num (.finite ⟨2, 0⟩)),
  ("date", .str "not-a-date"),
  ("message", .str "hello")]

/-- What the appointment insert validator returns on that payload:
success, with date holding an Invalid Date. -/
def badDateAppointmentParsed : JSObject := [
  ("propertyId", .num (.finite ⟨1, 0⟩)),
  ("userId", .num (.finite ⟨2, 0⟩)),
  ("date", .date .invalid),
  ("message", .str "hello")]

/-- A user insert payload that carries the server-assigned id field. -/
def userPayloadWithId : JSObject := [
  ("id", .num (.finite ⟨5, 0⟩)),
  ("username", .str "alice"),
  ("password", .str "pw"),
  ("email", .str "alice@mail.test"),
  ("fullName", .str "Alice Ames")]

/-- A filter query carrying one recognised field and one unknown field. -/
def cityPlusUnknownPayload : JSObject := [
  ("city", .str "Springfield"),
  ("unrecognized", .bool true)]

/-- The recognised filter field names, in declaration order. -/
def filterFieldNames : List String :=
  ["city", "minPrice", "maxPrice", "minBeds", "minBaths", "propertyType",
   "listingType", "minSqft", "maxSqft", "minYear", "maxYear"]

/-- Test for values an optional string field accepts. -/
def isStrOrUndef : JSValue → Bool
  | .str _ => true
  | .undef => true
  | _ => false

/-- An optional string validator succeeds on a looked-up value that is
absent, a string, or undefined. -/
theorem optString_ok {v : Option JSValue} (h : v.all isStrOrUndef = true) :
    ∃ r, zodOptional zodString (v.getD .undef) = .ok r := by
  cases v with
  | none => exact ⟨.undef, rfl⟩
  | some x =>
    cases x with
    | undef => exact ⟨.undef, rfl⟩
    | str s => exact ⟨.str s, rfl⟩
    | nullv => simp [Option.all, isStrOrUndef] at h
    | bool b => simp [Option.all, isStrOrUndef] at h
    | num n => simp [Option.all, isStrOrUndef] at h
    | date d => simp [Option.all, isStrOrUndef] at h
    | numArr xs => simp [Option.all, isStrOrUndef] at h

/-! ## Claim C1 -/

/-- Claim C1 as stated is false at this input: the property payload whose
bedrooms field is the non-numeric string three does not fail validation —
it validates successfully, with bedrooms holding NaN, because the union
branch z.string().transform(Number) accepts every string and the transform
result is not checked. -/
theorem C1_counterexample :
    zodParse insertPropertySchema bedroomsThreePayload = .ok bedroomsThreeParsed ∧
    jget bedroomsThreeParsed "bedrooms" = some (.num .nan) := by
  exact ⟨by decide, by decide⟩

/-- Claim C1 (amended): bedrooms, bathrooms and squareFeet each carry the
number-or-string union; a number passes through unchanged, and a string
validates to Number(string) — a numeric string such as 3 yields the number
3, while a non-numeric string such as three yields NaN with validation
still succeeding rather than failing. -/
theorem C1_amended :
    fieldSchema insertPropertySchema "bedrooms" = some numberOrStringToNumber ∧
    fieldSchema insertPropertySchema "bathrooms" = some numberOrStringToNumber ∧
    fieldSchema insertPropertySchema "squareFeet" = some numberOrStringToNumber ∧
    (∀ d : Dec, numberOrStringToNumber (.num (.finite d)) = .ok (.num (.finite d))) ∧
    (∀ s : String, numberOrStringToNumber (.str s) = .ok (.num (jsNumber s))) ∧
    jsNumber "3" = .finite ⟨3, 0⟩ ∧
    jsNumber "three" = .nan := by
  refine ⟨rfl, rfl, rfl, fun d => rfl, fun s => rfl, by decide, by decide⟩

/-! ## Claim C2 -/

/-- Claim C2 as stated is false at this input: the appointment payload
whose date field is the string not-a-date does not fail validation — it
validates successfully, with date holding an Invalid Date, because the
union branch z.string().transform(val => new Date(val)) accepts every
string and the transform result is not checked. -/
theorem C2_counterexample :
    zodParse insertAppointmentSchema badDateAppointmentPayload = .ok badDateAppointmentParsed ∧
    jget badDateAppointmentParsed "date" = some (.date .invalid) := by
  exact ⟨by decide, by decide⟩

/-- Claim C2 (amended): the appointment date field carries the
date-or-string union; a valid date value passes through unchanged, and a
string validates to new Date(string) — a parseable ISO timestamp yields
the equivalent date value, while an unparseable string yields an Invalid
Date with validation still succeeding rather than failing. -/
theorem C2_amended :
    fieldSchema insertAppointmentSchema "date" = some appointmentDateSchema ∧
    (∀ ms : ℤ, appointmentDateSchema (.date (.valid ms)) = .ok (.date (.valid ms))) ∧
    (∀ s : String, appointmentDateSchema (.str s) = .ok (.date (jsNewDate s))) ∧
    jsNewDate "2024-05-01T10:00:00Z" = .valid 1714557600000 ∧
    jsNewDate "not-a-date" = .invalid := by
  refine ⟨rfl, fun ms => rfl, fun s => rfl, by decide, by decide⟩

/-! ## Claim C3 -/

/-- Claim C3 as stated is false for the User entity: insertUserSchema is
built without an omit clause, so a user payload carrying the
server-assigned id validates successfully and the output retains id. -/
theorem C3_counterexample :
    zodParse insertUserSchema userPayloadWithId = .ok userPayloadWithId ∧
    jget userPayloadWithId "id" = some (.num (.finite ⟨5, 0⟩)) := by
  exact ⟨by decide, by decide⟩

/-- Claim C3 (amended): the Property and Appointment insert validators
omit id and createdAt, so no successful result of theirs ever contains
those keys; the User insert validator, built without an omit clause,
retains both as optional fields of its accepted shape. -/
theorem C3_amended :
    (∀ input out, zodParse insertPropertySchema input = .ok out →
      jget out "id" = none ∧ jget out "createdAt" = none) ∧
    (∀ input out, zodParse insertAppointmentSchema input = .ok out →
      jget out "id" = none ∧ jget out "createdAt" = none) ∧
    fieldSchema insertUserSchema "id" = some (zodOptional zodNumber) ∧
    fieldSchema insertUserSchema "createdAt" = some (zodOptional (zodNullable zodDate)) := by
  refine ⟨?_, ?_, rfl, rfl⟩
  · intro input out h
    rw [zodParse_ok_out h]
    exact ⟨parseOut_key_not_in_shape (by decide), parseOut_key_not_in_shape (by decide)⟩
  · intro input out h
    rw [zodParse_ok_out h]
    exact ⟨parseOut_key_not_in_shape (by decide), parseOut_key_not_in_shape (by decide)⟩

/-- Witness for C3 (amended) at a concrete successful parse. -/
theorem C3_amended_witness :
    jget validPropertyPayload "id" = none ∧ jget validPropertyPayload "createdAt" = none :=
  C3_amended.1 validPropertyPayload validPropertyPayload (by decide)

/-! ## Claim C4 -/

/-- Claim C4: price, lat and lng each carry the string-or-number union; a
string input passes through unchanged, and a number input is converted by
String(number) to its decimal string representation (for instance the
number 250000 becomes the string 250000). -/
theorem C4_numeric_string_fields :
    fieldSchema insertPropertySchema "price" = some numericOrNumberToString ∧
    fieldSchema insertPropertySchema "lat" = some numericOrNumberToString ∧
    fieldSchema insertPropertySchema "lng" = some numericOrNumberToString ∧
    (∀ s : String, numericOrNumberToString (.str s) = .ok (.str s)) ∧
    (∀ d : Dec, numericOrNumberToString (.num (.finite d)) =
      .ok (.str (jsNumToString (.finite d)))) ∧
    jsNumToString (.finite (decNorm 250000 0)) = "250000" ∧
    jsNumToString (.finite ⟨2500005, -1⟩) = "250000.5" := by
  refine ⟨rfl, rfl, rfl, fun s => rfl, fun d => rfl, by decide, by decide⟩

/-! ## Claim C5 -/

/-- Claim C5: creating a row from a validated insert object applies the
declared column defaults to absent fields — a User without
savedProperties stores the empty array, and a Property without featured,
status, avgRating or ratingCount stores false, available, the string 0 and
the number 0 respectively. -/
theorem C5_defaults :
    ∀ (obj : JSObject) (newId now : ℤ),
      (jget obj "savedProperties" = none →
        jget (insertRow users newId now obj) "savedProperties" = some (.numArr [])) ∧
      (jget obj "featured" = none →
        jget (insertRow properties newId now obj) "featured" = some (.bool false)) ∧
      (jget obj "status" = none →
        jget (insertRow properties newId now obj) "status" = some (.str "available")) ∧
      (jget obj "avgRating" = none →
        jget (insertRow properties newId now obj) "avgRating" = some (.str "0")) ∧
      (jget obj "ratingCount" = none →
        jget (insertRow properties newId now obj) "ratingCount" =
          some (.num (.finite ⟨0, 0⟩))) := by
  intro obj newId now
  refine ⟨?_, ?_, ?_, ?_, ?_⟩ <;>
    (intro h; simp only [jget] at h;
     simp [insertRow, users, properties, jget, List.find?, h])

/-- Witness for C5 at the empty insert object. -/
theorem C5_defaults_witness :
    jget (insertRow users 1 0 []) "savedProperties" = some (.numArr []) ∧
    jget (insertRow properties 1 0 []) "status" = some (.str "available") :=
  ⟨(C5_defaults [] 1 0).1 rfl, (C5_defaults [] 1 0).2.2.1 rfl⟩

/-! ## Claim C6 -/

/-- Claim C6: a property insert payload missing the required title field
fails validation, and the aggregated issues name title with the
missing-field (Required) error; nothing defaults it. -/
theorem C6_missing_required :
    ∀ obj : JSObject, jget obj "title" = none →
      zodParse insertPropertySchema obj = .error (parseErrs insertPropertySchema obj) ∧
      ("title", ErrKind.missing) ∈ parseErrs insertPropertySchema obj := by
  intro obj h
  have hmem : ("title", zodString) ∈ insertPropertySchema := by
    rw [insertPropertySchema_eq]
    simp
  have he : zodString ((jget obj "title").getD .undef) = .error .missing := by
    rw [h]
    rfl
  exact zodParse_error_of_field hmem he

/-- Witness for C6 at the empty payload. -/
theorem C6_missing_required_witness :
    zodParse insertPropertySchema [] = .error (parseErrs insertPropertySchema []) ∧
    ("title", ErrKind.missing) ∈ parseErrs insertPropertySchema [] :=
  C6_missing_required [] rfl

/-! ## Claim C7 -/

/-- Claim C7: yearBuilt is optional — absent it validates to undefined
and stays absent from the output object, the empty string validates to
undefined, a numeric string such as 1998 validates to the number 1998, and
a plain number passes through. -/
theorem C7_yearBuilt :
    fieldSchema insertPropertySchema "yearBuilt" = some yearBuiltSchema ∧
    yearBuiltSchema .undef = .ok .undef ∧
    yearBuiltSchema (.str "") = .ok .undef ∧
    yearBuiltSchema (.str "1998") = .ok (.num (.finite ⟨1998, 0⟩)) ∧
    (∀ d : Dec, yearBuiltSchema (.num (.finite d)) = .ok (.num (.finite d))) ∧
    (∀ obj, jget obj "yearBuilt" = none →
      jget (parseOut insertPropertySchema obj) "yearBuilt" = none) := by
  refine ⟨rfl, rfl, by decide, by decide, fun d => rfl, ?_⟩
  intro obj h
  apply parseOut_absent_key h
  intro sch hmem
  rw [insertPropertySchema_eq] at hmem
  simp only [List.mem_cons, List.not_mem_nil, or_false, Prod.mk.injEq] at hmem
  rcases hmem with h1 | h1 | h1 | h1 | h1 | h1 | h1 | h1 | h1 | h1 | h1 | h1 | h1 | h1 | h1 | h1 | h1 | h1 | h1 | h1 | h1 <;>
    first
      | (exact absurd h1.1 (by decide))
      | (rw [h1.2]; rfl)

/-- Witness for C7 at a concrete payload without yearBuilt. -/
theorem C7_yearBuilt_witness :
    jget (parseOut insertPropertySchema validPropertyPayload) "yearBuilt" = none :=
  C7_yearBuilt.2.2.2.2.2 validPropertyPayload (by decide)

/-! ## Claim C8 -/

/-- A property insert payload in canonical shape: every field already the
kind its column stores (text and numeric columns strings, integer columns
numbers, the boolean column a boolean). -/
structure PropertyInsert where
  title : String
  description : String
  price : String
  address : String
  city : String
  state : String
  zipCode : String
  lat : String
  lng : String
  bedrooms : Dec
  bathrooms : Dec
  squareFeet : Dec
  yearBuilt : Dec
  propertyType : String
  listingType : String
  imageUrl : String
  userId : Dec
  featured : Bool
  status : String
  avgRating : String
  ratingCount : Dec

/-- The canonical property payload as a JavaScript object, fields in
schema order. -/
def PropertyInsert.toObj (p : PropertyInsert) : JSObject := [
  ("title", .str p.title),
  ("description", .str p.description),
  ("price", .str p.price),
  ("address", .str p.address),
  ("city", .str p.city),
  ("state", .str p.state),
  ("zipCode", .str p.zipCode),
  ("lat", .str p.lat),
  ("lng", .str p.lng),
  ("bedrooms", .num (.finite p.bedrooms)),
  ("bathrooms", .num (.finite p.bathrooms)),
  ("squareFeet", .num (.finite p.squareFeet)),
  ("yearBuilt", .num (.finite p.yearBuilt)),
  ("propertyType", .str p.propertyType),
  ("listingType", .str p.listingType),
  ("imageUrl", .str p.imageUrl),
  ("userId", .num (.finite p.userId)),
  ("featured", .bool p.featured),
  ("status", .str p.status),
  ("avgRating", .str p.avgRating),
  ("ratingCount", .num (.finite p.ratingCount))]

/-- An appointment insert payload in canonical shape. -/
structure AppointmentInsert where
  propertyId : Dec
  userId : Dec
  date : ℤ
  message : String
  status : String

/-- The canonical appointment payload as a JavaScript object, fields in
schema order. -/
def AppointmentInsert.toObj (a : AppointmentInsert) : JSObject := [
  ("propertyId", .num (.finite a.propertyId)),
  ("userId", .num (.finite a.userId)),
  ("date", .date (.valid a.date)),
  ("message", .str a.message),
  ("status", .str a.status)]

/-- Claim C8: insert validation is idempotent on canonical payloads — a
property or appointment payload whose fields already have the canonical
kinds validates successfully and is returned unchanged. -/
theorem C8_idempotent :
    (∀ p : PropertyInsert, zodParse insertPropertySchema p.toObj = .ok p.toObj) ∧
    (∀ a : AppointmentInsert, zodParse insertAppointmentSchema a.toObj = .ok a.toObj) := by
  exact ⟨fun p => rfl, fun a => rfl⟩

/-! ## Claim C9 -/

/-- Claim C9: the property filter schema declares exactly the eleven
recognised field names, each as an optional string; validation accepts the
empty object and an object with only city set, and an optional string
field accepts exactly strings and absence (a number or null is a shape
error). -/
theorem C9_filter :
    propertyFilterSchema = filterFieldNames.map (fun n => (n, zodOptional zodString)) ∧
    zodParse propertyFilterSchema [] = .ok [] ∧
    zodParse propertyFilterSchema [("city", .str "Springfield")] =
      .ok [("city", .str "Springfield")] ∧
    (∀ s : String, zodOptional zodString (.str s) = .ok (.str s)) ∧
    zodOptional zodString .undef = .ok .undef ∧
    (∀ n : JSNum, zodOptional zodString (.num n) = .error .shape) ∧
    zodOptional zodString .nullv = .error .shape := by
  exact ⟨rfl, by decide, by decide, fun s => rfl, rfl, fun n => rfl, rfl⟩

/-! ## Claim C10 -/

/-- Claim C10: a filter input whose recognised fields are all valid
(absent, a string, or undefined) validates successfully even in the
presence of unrecognised extra fields, and every key of the output is one
of the eleven recognised filter keys. -/
theorem C10_strip_unknown :
    ∀ obj : JSObject,
      (∀ name ∈ filterFieldNames, (jget obj name).all isStrOrUndef = true) →
      zodParse propertyFilterSchema obj = .ok (parseOut propertyFilterSchema obj) ∧
      ∀ k v, (k, v) ∈ parseOut propertyFilterSchema obj → k ∈ filterFieldNames := by
  intro obj h
  constructor
  · apply zodParse_ok_of_fields
    intro p hp
    have heq : propertyFilterSchema =
        filterFieldNames.map (fun n => (n, zodOptional zodString)) := rfl
    rw [heq] at hp
    rcases List.mem_map.mp hp with ⟨n, hn, hpn⟩
    subst hpn
    exact optString_ok (h n hn)
  · intro k v hm
    have hk := mem_shape_keys_of_mem_parseOut hm
    have hmap : propertyFilterSchema.map Prod.fst = filterFieldNames := by decide
    rw [hmap] at hk
    exact hk

/-- Witness for C10 at a query with one recognised and one unknown key. -/
theorem C10_strip_unknown_witness :
    zodParse propertyFilterSchema cityPlusUnknownPayload =
      .ok (parseOut propertyFilterSchema cityPlusUnknownPayload) :=
  (C10_strip_unknown cityPlusUnknownPayload (by decide)).1
